import Mathlib

/-!
Shallow embedding of the cv-yolo-world streaming pipeline:
`preprocess/src/preprocess.py` (class `VideoPreprocessor`, the frame producer)
and `inference/src/inference.py` (class `YOLOWorldInference`, the detection
worker with its model loader).  External collaborators (OpenCV encoding, the
Kafka client, the YOLO model, the Fernet cipher) are modelled as explicit
oracles or symbolic data, and every Python `try/except` block is modelled by
the corresponding total function: an exception caught by the handler becomes
the value the handler produces.
-/

set_option autoImplicit false

/-- Raw pixel data of one captured frame, opaque to the pipeline. -/
abbrev Frame := List Nat

/-- A byte string (JPEG bytes, model bytes, ciphertext bytes). -/
abbrev Bytes := List Nat

/-- Boolean suffix test on strings, evaluating through the character list;
it models the Python `str.endswith` call used on the model path. -/
def str_endsWith (s t : String) : Bool :=
  t.toList.reverse.isPrefixOf s.toList.reverse

namespace Preprocess

/-- Payload built by `VideoPreprocessor.process_frame` (preprocess.py lines
56-60): encoded frame bytes, the prompt, and the current frame counter. -/
structure FrameMessage where
  frame : Bytes
  prompt : String
  frame_id : Nat
deriving DecidableEq, Repr

/-- One record handed to `producer.produce` (topic, key, payload),
preprocess.py lines 63-68. -/
structure KafkaRecord where
  topic : String
  key : String
  value : FrameMessage
deriving DecidableEq, Repr

/-- Mutable state of a `VideoPreprocessor` instance as set up by `__init__`
(preprocess.py lines 31-34); the Kafka producer handle itself is external. -/
structure VideoPreprocessor where
  frames_topic : String
  frame_rate : Nat
  frame_count : Nat
deriving DecidableEq, Repr

/-- Constructor `VideoPreprocessor.__init__`: the frame counter of a fresh
instance starts at 0 (preprocess.py line 34). -/
def VideoPreprocessor.make (frames_topic : String) (frame_rate : Nat) :
    VideoPreprocessor :=
  { frames_topic := frames_topic, frame_rate := frame_rate, frame_count := 0 }

/-- Embedding of `VideoPreprocessor.process_frame` (preprocess.py lines
43-73).  The body is one `try` block: encode the frame (oracle `encode`;
`none` models a raised exception), build the message with the current
`frame_count`, call `producer.produce` keyed by `str(frame_count)` (oracle
`produceOk`; `false` models a raised exception, in which case nothing was
enqueued), and only then increment `frame_count`.  Any exception is caught
by the `except` handler, which logs and returns, leaving the state as it
was at the point the exception was raised. -/
def process_frame (encode : Frame → Option Bytes) (produceOk : Bool)
    (s : VideoPreprocessor) (frame : Frame) (prompt : String) :
    VideoPreprocessor × Option KafkaRecord :=
  match encode frame with
  | none => (s, none)
  | some frame_bytes =>
    if produceOk then
      ({ s with frame_count := s.frame_count + 1 },
       some { topic := s.frames_topic,
              key := toString s.frame_count,
              value := { frame := frame_bytes, prompt := prompt,
                         frame_id := s.frame_count } })
    else (s, none)

/-- The `while True` read loop of `process_video` (preprocess.py lines
88-94): read frames until the capture is exhausted, calling `process_frame`
and then `producer.flush()` for each.  `produceOk i` tells whether the
produce call of the i-th loop iteration succeeds.  Returns the final state
and the list of records actually handed to the Kafka producer, in order. -/
def read_loop (encode : Frame → Option Bytes) (produceOk : Nat → Bool)
    (prompt : String) :
    VideoPreprocessor → List Frame → Nat → VideoPreprocessor × List KafkaRecord
  | s, [], _ => (s, [])
  | s, f :: fs, i =>
    let step := process_frame encode (produceOk i) s f prompt
    let rest := read_loop encode produceOk prompt step.1 fs (i + 1)
    (rest.1, step.2.toList ++ rest.2)

/-- The `try` block of `VideoPreprocessor.process_video` (preprocess.py
lines 82-94) before its `except` handler: if the capture cannot be opened
(`openOk = false`, i.e. `cap.isOpened()` is false) it raises
`ValueError('Failed to open video source: ...')`; otherwise it runs the
read loop over the frames the source yields. -/
def process_video_body (openOk : Bool) (frames : List Frame)
    (encode : Frame → Option Bytes) (produceOk : Nat → Bool)
    (s : VideoPreprocessor) (prompt : String) :
    Except String (VideoPreprocessor × List KafkaRecord) :=
  if openOk then Except.ok (read_loop encode produceOk prompt s frames 0)
  else Except.error "Failed to open video source"

/-- Embedding of the whole of `VideoPreprocessor.process_video`
(preprocess.py lines 75-100): the surrounding `except Exception` handler
catches every exception raised by the body, logs it, and falls through to
`finally`, so the call itself always returns normally; on the error path no
frame was processed and the state is unchanged. -/
def process_video (openOk : Bool) (frames : List Frame)
    (encode : Frame → Option Bytes) (produceOk : Nat → Bool)
    (s : VideoPreprocessor) (prompt : String) :
    VideoPreprocessor × List KafkaRecord :=
  match process_video_body openOk frames encode produceOk s prompt with
  | Except.ok r => r
  | Except.error _ => (s, [])

end Preprocess

namespace Inference

/-- One detection row of the `results[0].boxes` table returned by the YOLO
model: the ultralytics `Boxes` object is a table with one row per detected
object, whose `xyxy`, `cls` and `conf` attributes are its columns, so each
row carries one box, one class label and one confidence.  Numeric values
are modelled as rationals. -/
structure Detection where
  box : List ℚ
  label : ℚ
  conf : ℚ
deriving DecidableEq, Repr

/-- The opaque detector: `self.model(frame, prompt=prompt)` in
`process_frame` (inference.py line 93).  `none` models the model invocation
raising an exception; `some rows` models a successful call returning the
detection table. -/
abbrev Model := Bytes → String → Option (List Detection)

/-- The dictionary `detections` assembled by `process_frame` (inference.py
lines 96-101) and serialized onto the detections topic. -/
structure DetectionMessage where
  frame_id : Int
  boxes : List (List ℚ)
  labels : List ℚ
  confidences : List ℚ
deriving DecidableEq, Repr

/-- The dictionary obtained from `json.loads(msg.value())` in the consumer
loop.  A `none` field models a dictionary in which that key is missing, so
that the corresponding subscript access raises `KeyError`. -/
structure FrameData where
  frame : Option Bytes
  prompt : Option String
  frame_id : Option Int
deriving DecidableEq, Repr

/-- Embedding of `YOLOWorldInference.process_frame` (inference.py lines
77-107).  The body is one `try` block: read `frame_data['frame']`,
`frame_data['prompt']`, `frame_data['frame_id']` in that order (a missing
key raises `KeyError`), invoke the model, and assemble the detections
dictionary whose `boxes`, `labels` and `confidences` lists are the three
columns of the same detection table.  The `except Exception` handler turns
every exception into the return value `None`, modelled as `none`. -/
def process_frame (model : Model) (fd : FrameData) : Option DetectionMessage :=
  match fd.frame with
  | none => none
  | some frame =>
    match fd.prompt with
    | none => none
    | some prompt =>
      match fd.frame_id with
      | none => none
      | some frame_id =>
        match model frame prompt with
        | none => none
        | some rows =>
          some { frame_id := frame_id,
                 boxes := rows.map (fun r => r.box),
                 labels := rows.map (fun r => r.label),
                 confidences := rows.map (fun r => r.conf) }

/-- One record handed to `producer.produce` on the detections topic
(inference.py lines 127-131). -/
structure PublishedRecord where
  topic : String
  key : String
  value : DetectionMessage
deriving DecidableEq, Repr

/-- One result of `consumer.poll(1.0)` in the main loop (inference.py lines
113-122): no message, a broker error, or a message whose value either fails
`json.loads` (`payload none`, malformed) or parses to a frame dictionary. -/
inductive PolledMsg where
  | noMessage : PolledMsg
  | brokerError (e : String) : PolledMsg
  | payload (v : Option FrameData) : PolledMsg
deriving DecidableEq, Repr

/-- One iteration of the body of `YOLOWorldInference.run` (inference.py
lines 113-135) on one polled result: skip empty polls and broker errors;
for a message, the inner `try` block deserializes (a `json.loads` failure
is caught by the inner `except`, logged, and the loop continues), calls
`process_frame`, and publishes the detections keyed by
`str(detections['frame_id'])` only when the result is truthy (the result
is `None` or a dictionary that always has four keys, hence truthy). -/
def handle_message (detections_topic : String) (model : Model) :
    PolledMsg → List PublishedRecord
  | PolledMsg.noMessage => []
  | PolledMsg.brokerError _ => []
  | PolledMsg.payload none => []
  | PolledMsg.payload (some fd) =>
    match process_frame model fd with
    | none => []
    | some d =>
      [{ topic := detections_topic, key := toString d.frame_id, value := d }]

/-- The main loop of `YOLOWorldInference.run` over a finite prefix of
polled results, collecting every record published to the detections topic
in order.  The loop never escapes on a per-message failure: each iteration
is `handle_message` and the loop always continues with the rest. -/
def run (detections_topic : String) (model : Model) :
    List PolledMsg → List PublishedRecord
  | [] => []
  | m :: rest => handle_message detections_topic model m ++ run detections_topic model rest

/-- Symbolic model of a Fernet token produced by `Fernet(key).encrypt`:
Fernet is authenticated encryption, so a token determines the key it was
minted under and the exact plaintext, and verification with any other key
fails.  The token is treated as opaque ciphertext bytes by the loader. -/
structure FernetToken where
  key : String
  data : Bytes
deriving DecidableEq, Repr

/-- Symbolic `Fernet(key).encrypt(plaintext)`. -/
def fernet_encrypt (key : String) (plaintext : Bytes) : FernetToken :=
  { key := key, data := plaintext }

/-- Symbolic `Fernet(key).decrypt(token)`: returns the exact plaintext when
the key matches the one the token was minted under, and raises
`InvalidToken` (modelled as `Except.error ()`) otherwise, as the HMAC
verification step of Fernet rejects the token before any plaintext is
released. -/
def fernet_decrypt (key : String) (t : FernetToken) : Except Unit Bytes :=
  if t.key = key then Except.ok t.data else Except.error ()

/-- Exceptions that can escape `_load_model` (inference.py lines 53-75);
the `except` handler there logs and re-raises, so they propagate out of
`__init__`.  `valueError` is the `ValueError('Model encryption key not
found')` of line 60, the error the design taxonomy classifies as a
configuration error; `invalidToken` is the `cryptography.fernet
.InvalidToken` raised on a failed decryption, classified as a decryption
error; `ioError` covers a failed file open or a failed `YOLO(...)` load. -/
inductive LoadError where
  | valueError (msg : String) : LoadError
  | invalidToken : LoadError
  | ioError : LoadError
deriving DecidableEq, Repr

/-- Observable side effects of `__init__` and `_load_model`, in program
order: constructing the Kafka `Consumer` (line 36) and `Producer` (line
41), assigning the partition (line 46), opening and reading the model
artifact (lines 63-64), writing the decrypted bytes to the temp path
(lines 67-69), and handing a path to `YOLO(...)` (line 72). -/
inductive InitEvent where
  | connectConsumer : InitEvent
  | connectProducer : InitEvent
  | assignPartition (p : Nat) : InitEvent
  | readArtifact (path : String) : InitEvent
  | writeTemp : InitEvent
  | loadModel (path : String) : InitEvent
deriving DecidableEq, Repr

/-- Contents of a file on disk as seen by the loader: either a Fernet token
(an encrypted artifact) or raw bytes (a plaintext artifact, or a corrupt
file that is not a valid token). -/
inductive FileContent where
  | token (t : FernetToken) : FileContent
  | raw (bytes : Bytes) : FileContent
deriving DecidableEq, Repr

/-- Embedding of `YOLOWorldInference._load_model` (inference.py lines
53-75).  Returns the trace of events performed before returning or raising
and the outcome: the bytes the `YOLO` model was loaded from, or the
exception that escaped.  When the path ends in `.enc` the environment key
is checked first; its absence raises the `ValueError` before any file I/O.
With a key present the artifact is read, decrypted, and the decrypted
bytes are written to `/tmp/model.pt`, from where the model is loaded.
Raw (non-token) contents of an `.enc` file make `decrypt` raise
`InvalidToken` (corrupt ciphertext). -/
def load_model (env_key : Option String) (fs : String → Option FileContent)
    (model_path : String) : List InitEvent × Except LoadError Bytes :=
  if str_endsWith model_path ".enc" then
    match env_key with
    | none => ([], Except.error (LoadError.valueError "Model encryption key not found"))
    | some key =>
      match fs model_path with
      | none => ([InitEvent.readArtifact model_path], Except.error LoadError.ioError)
      | some (FileContent.raw _) =>
        ([InitEvent.readArtifact model_path], Except.error LoadError.invalidToken)
      | some (FileContent.token t) =>
        match fernet_decrypt key t with
        | Except.error _ =>
          ([InitEvent.readArtifact model_path], Except.error LoadError.invalidToken)
        | Except.ok plaintext =>
          ([InitEvent.readArtifact model_path, InitEvent.writeTemp,
            InitEvent.loadModel "/tmp/model.pt"], Except.ok plaintext)
  else
    match fs model_path with
    | some (FileContent.raw bytes) => ([InitEvent.loadModel model_path], Except.ok bytes)
    | _ => ([InitEvent.loadModel model_path], Except.error LoadError.ioError)

/-- Embedding of `YOLOWorldInference.__init__` (inference.py lines 19-51)
as the ordered trace of its startup effects together with the model-load
outcome: the `Consumer` and `Producer` clients are constructed and the
partition is assigned BEFORE `_load_model` runs (lines 36-49); `__init__`
has no handler, so a model-load exception propagates and construction
fails. -/
def worker_init (env_key : Option String) (fs : String → Option FileContent)
    (model_path : String) (partition : Nat) :
    List InitEvent × Except LoadError Bytes :=
  let r := load_model env_key fs model_path
  ([InitEvent.connectConsumer, InitEvent.connectProducer,
    InitEvent.assignPartition partition] ++ r.1, r.2)

/-- Concrete well-formed frame dictionary used as a test fixture: encoded
frame bytes, the prompt `detect car`, and a given frame id. -/
def sampleFrameData (fid : Int) : FrameData :=
  { frame := some [1, 2, 3, 4], prompt := some "detect car", frame_id := some fid }

/-- Stub detector returning no detection rows. -/
def stubDetector0 : Model := fun _ _ => some []

/-- Stub detector returning one detection row: box `[0,0,1,1]`, label `2`,
confidence `0.9`. -/
def stubDetector1 : Model :=
  fun _ _ => some [{ box := [0, 0, 1, 1], label := 2, conf := 9/10 }]

/-- Stub detector returning five identical detection rows. -/
def stubDetector5 : Model :=
  fun _ _ => some (List.replicate 5 { box := [0, 0, 1, 1], label := 2, conf := 9/10 })

/-- Test filesystem on which every path holds the token obtained by
encrypting the bytes `[1, 2, 3]` under the key `KEYA`. -/
def fsTokenA : String → Option FileContent :=
  fun _ => some (FileContent.token (fernet_encrypt "KEYA" [1, 2, 3]))

end Inference

namespace Preprocess

theorem process_frame_count_step (encode : Frame → Option Bytes) (produceOk : Bool)
    (s : VideoPreprocessor) (frame : Frame) (prompt : String) :
    (process_frame encode produceOk s frame prompt).1.frame_count = s.frame_count ∨
    (process_frame encode produceOk s frame prompt).1.frame_count = s.frame_count + 1 := by
  unfold process_frame
  cases encode frame with
  | none => left; rfl
  | some b => cases produceOk <;> simp

theorem read_loop_fst (encode : Frame → Option Bytes) (produceOk : Nat → Bool)
    (prompt : String) (s : VideoPreprocessor) (f : Frame) (fs : List Frame) (i : Nat) :
    (read_loop encode produceOk prompt s (f :: fs) i).1
      = (read_loop encode produceOk prompt
          (process_frame encode (produceOk i) s f prompt).1 fs (i + 1)).1 := rfl

theorem read_loop_count_mono (encode : Frame → Option Bytes) (produceOk : Nat → Bool)
    (prompt : String) :
    ∀ (frames : List Frame) (s : VideoPreprocessor) (i : Nat),
      s.frame_count ≤ (read_loop encode produceOk prompt s frames i).1.frame_count := by
  intro frames
  induction frames with
  | nil => intro s i; exact Nat.le_refl _
  | cons f fs ih =>
    intro s i
    rw [read_loop_fst]
    refine Nat.le_trans ?_ (ih _ (i + 1))
    rcases process_frame_count_step encode (produceOk i) s f prompt with h | h <;> omega

theorem read_loop_ids (encode : Frame → Option Bytes) (prompt : String) :
    ∀ (frames : List Frame) (s : VideoPreprocessor) (i : Nat),
      (∀ f ∈ frames, (encode f).isSome) →
      ((read_loop encode (fun _ => true) prompt s frames i).2.map
          (fun r => r.value.frame_id))
        = List.range' s.frame_count frames.length := by
  intro frames
  induction frames with
  | nil => intro s i h; rfl
  | cons f fs ih =>
    intro s i h
    obtain ⟨b, hb⟩ := Option.isSome_iff_exists.mp (h f (by simp))
    have hstep : process_frame encode true s f prompt
        = ({ s with frame_count := s.frame_count + 1 },
           some { topic := s.frames_topic, key := toString s.frame_count,
                  value := { frame := b, prompt := prompt,
                             frame_id := s.frame_count } }) := by
      simp [process_frame, hb]
    have hrec := ih { s with frame_count := s.frame_count + 1 }
      (i + 1) (fun g hg => h g (by simp [hg]))
    simp only [read_loop, hstep, List.range'_succ, Option.toList_some,
      List.singleton_append, List.map_cons]
    exact congrArg (List.cons s.frame_count) hrec

end Preprocess

/-- C1: over a source yielding N frames with every encode and every produce
call succeeding, a run of `process_video` on a fresh `VideoPreprocessor`
publishes FrameMessages whose `frame_id` values are exactly
`0, 1, ..., N-1` in order: strictly increasing, no gaps, no duplicates,
starting from 0. -/
theorem C1_producer_frame_ids_sequential (frames : List Frame) (prompt : String)
    (encode : Frame → Option Bytes)
    (h : ∀ f ∈ frames, (encode f).isSome) :
    ((Preprocess.process_video true frames encode (fun _ => true)
        (Preprocess.VideoPreprocessor.make "frames" 30) prompt).2.map
      (fun r => r.value.frame_id)) = List.range frames.length := by
  have hids := Preprocess.read_loop_ids encode prompt frames
    (Preprocess.VideoPreprocessor.make "frames" 30) 0 h
  simp only [Preprocess.process_video, Preprocess.process_video_body, if_pos]
  rw [List.range_eq_range']
  exact hids

/-- C1 witness: a concrete three-frame run with an always-succeeding encode
oracle publishes frame ids 0, 1, 2. -/
theorem C1_producer_frame_ids_sequential_witness :
    (∀ f ∈ [[10], [20], [30]],
      ((fun g => some g : Frame → Option Bytes) f).isSome) ∧
    ((Preprocess.process_video true [[10], [20], [30]] (fun g => some g)
        (fun _ => true) (Preprocess.VideoPreprocessor.make "frames" 30)
        "detect person").2.map (fun r => r.value.frame_id))
      = List.range 3 :=
  ⟨by decide, C1_producer_frame_ids_sequential [[10], [20], [30]]
    "detect person" (fun g => some g) (by decide)⟩

/-- C6: contrary to the claim that `process_video` terminates with an error
when the video source cannot be opened, the `ValueError` raised inside the
`try` block is caught by the blanket `except Exception` handler of the same
function, which logs it and returns normally: for every unopenable source
the body raises, yet the call returns the unchanged state and an empty
publication list instead of propagating the error. -/
theorem C6_process_video_open_failure_swallowed (frames : List Frame)
    (encode : Frame → Option Bytes) (produceOk : Nat → Bool)
    (s : Preprocess.VideoPreprocessor) (prompt : String) :
    Preprocess.process_video_body false frames encode produceOk s prompt
        = Except.error "Failed to open video source" ∧
    Preprocess.process_video false frames encode produceOk s prompt = (s, []) :=
  ⟨rfl, rfl⟩

/-- C7 counterexample: one concrete call in which the encode step succeeds
but the produce call raises; the claim says the counter must increase by 1,
yet it stays at 0 because the increment on line 70 of preprocess.py runs
only after `producer.produce` and `producer.poll` have returned. -/
theorem C7_counterexample_encode_ok_publish_fails :
    ((fun _ => some ([] : Bytes) : Frame → Option Bytes) [0]).isSome = true ∧
    ¬ ((Preprocess.process_frame (fun _ => some []) false
          (Preprocess.VideoPreprocessor.make "frames" 30) [0] "p").1.frame_count
        = (Preprocess.VideoPreprocessor.make "frames" 30).frame_count + 1) := by
  exact ⟨rfl, by decide⟩

/-- C7 amended: the frame counter increases by 1 exactly when BOTH the
encode step and the produce call succeed (and then no other field of the
producer state changes); if the encode step fails, or the encode step
succeeds but the produce call raises, the whole state is unchanged and no
record is published. -/
theorem C7_counter_increments_iff_encode_and_produce
    (encode : Frame → Option Bytes) (produceOk : Bool)
    (s : Preprocess.VideoPreprocessor) (frame : Frame) (prompt : String) :
    ((encode frame).isSome → produceOk = true →
        (Preprocess.process_frame encode produceOk s frame prompt).1
          = { s with frame_count := s.frame_count + 1 }) ∧
    ((encode frame = none ∨ produceOk = false) →
        Preprocess.process_frame encode produceOk s frame prompt = (s, none)) := by
  constructor
  · intro henc hp
    obtain ⟨b, hb⟩ := Option.isSome_iff_exists.mp henc
    simp [Preprocess.process_frame, hb, hp]
  · intro h
    rcases h with h | h
    · simp [Preprocess.process_frame, h]
    · cases henc : encode frame with
      | none => simp [Preprocess.process_frame, henc]
      | some b => simp [Preprocess.process_frame, henc, h]

/-- C7 amended witness: at concrete inputs, a call with encode and produce
both succeeding increments the counter from 0 to 1, and a call with a
failing encode leaves the state unchanged with nothing published. -/
theorem C7_counter_increments_iff_encode_and_produce_witness :
    (Preprocess.process_frame (fun _ => some []) true
        (Preprocess.VideoPreprocessor.make "frames" 30) [0] "p").1
      = { Preprocess.VideoPreprocessor.make "frames" 30 with frame_count := 0 + 1 } ∧
    Preprocess.process_frame (fun _ => none) true
        (Preprocess.VideoPreprocessor.make "frames" 30) [0] "p"
      = (Preprocess.VideoPreprocessor.make "frames" 30, none) :=
  ⟨(C7_counter_increments_iff_encode_and_produce (fun _ => some []) true
      (Preprocess.VideoPreprocessor.make "frames" 30) [0] "p").1 (by decide) rfl,
   (C7_counter_increments_iff_encode_and_produce (fun _ => none) true
      (Preprocess.VideoPreprocessor.make "frames" 30) [0] "p").2 (Or.inl rfl)⟩

/-- C10: the frame counter is monotonically non-decreasing: every call to
`process_frame` changes `frame_count` by exactly 0 or 1, and
`process_video` (over any source, opened or not, with any encode and
produce outcomes) never decreases or resets it. -/
theorem C10_frame_counter_monotone (encode : Frame → Option Bytes)
    (produceOk : Bool) (pOk : Nat → Bool) (openOk : Bool)
    (s : Preprocess.VideoPreprocessor) (frame : Frame) (frames : List Frame)
    (prompt : String) :
    ((Preprocess.process_frame encode produceOk s frame prompt).1.frame_count
        = s.frame_count ∨
     (Preprocess.process_frame encode produceOk s frame prompt).1.frame_count
        = s.frame_count + 1) ∧
    s.frame_count
      ≤ (Preprocess.process_video openOk frames encode pOk s prompt).1.frame_count := by
  refine ⟨Preprocess.process_frame_count_step encode produceOk s frame prompt, ?_⟩
  cases openOk with
  | false => exact Nat.le_refl _
  | true =>
    simp only [Preprocess.process_video, Preprocess.process_video_body, if_pos]
    exact Preprocess.read_loop_count_mono encode pOk prompt frames s 0

namespace Inference

theorem mem_handle_message {topic : String} {model : Model} {m : PolledMsg}
    {rec : PublishedRecord} (h : rec ∈ handle_message topic model m) :
    ∃ fd d, m = PolledMsg.payload (some fd) ∧ process_frame model fd = some d ∧
      rec = { topic := topic, key := toString d.frame_id, value := d } := by
  cases m with
  | noMessage => cases h
  | brokerError e => cases h
  | payload v =>
    cases v with
    | none => cases h
    | some fd =>
      simp only [handle_message] at h
      cases hpf : process_frame model fd with
      | none => rw [hpf] at h; cases h
      | some d =>
        rw [hpf] at h
        exact ⟨fd, d, rfl, hpf, List.mem_singleton.mp h⟩

theorem mem_run {topic : String} {model : Model} {msgs : List PolledMsg}
    {rec : PublishedRecord} (h : rec ∈ run topic model msgs) :
    ∃ fd, PolledMsg.payload (some fd) ∈ msgs ∧
      process_frame model fd = some rec.value ∧
      rec.topic = topic ∧ rec.key = toString rec.value.frame_id := by
  induction msgs with
  | nil => cases h
  | cons m rest ih =>
    simp only [run] at h
    rcases List.mem_append.mp h with h | h
    · obtain ⟨fd, d, hm, hpf, hrec⟩ := mem_handle_message h
      refine ⟨fd, by simp [hm], ?_, ?_, ?_⟩ <;> simp [hrec, hpf]
    · obtain ⟨fd, hmem, h1, h2, h3⟩ := ih h
      exact ⟨fd, List.mem_cons_of_mem _ hmem, h1, h2, h3⟩

end Inference

/-- C2: every DetectionMessage assembled by the worker has
`len(boxes) = len(labels) = len(confidences)`, because the three lists are
the three columns of one detection table; this holds for every detector
output. -/
theorem C2_detection_lengths_equal (model : Inference.Model)
    (fd : Inference.FrameData) (d : Inference.DetectionMessage)
    (h : Inference.process_frame model fd = some d) :
    d.boxes.length = d.labels.length ∧
    d.labels.length = d.confidences.length := by
  unfold Inference.process_frame at h
  rcases hfr : fd.frame with _ | frame
  · simp [hfr] at h
  rcases hp : fd.prompt with _ | prompt
  · simp [hfr, hp] at h
  rcases hid : fd.frame_id with _ | fid
  · simp [hfr, hp, hid] at h
  rcases hm : model frame prompt with _ | rows
  · simp [hfr, hp, hid, hm] at h
  simp only [hfr, hp, hid, hm, Option.some.injEq] at h
  subst h
  simp

/-- C2 witness: the invariant checked at concrete runs with detectors
returning 0, 1 and 5 detections. -/
theorem C2_detection_lengths_equal_witness :
    (Inference.process_frame Inference.stubDetector0 (Inference.sampleFrameData 7)
        = some { frame_id := 7, boxes := [], labels := [], confidences := [] } ∧
      ([] : List (List ℚ)).length = ([] : List ℚ).length ∧
      ([] : List ℚ).length = ([] : List ℚ).length) ∧
    (Inference.process_frame Inference.stubDetector1 (Inference.sampleFrameData 7)
        = some { frame_id := 7, boxes := [[0, 0, 1, 1]], labels := [2],
                 confidences := [9/10] } ∧
      [[((0 : ℚ)), 0, 1, 1]].length = [(2 : ℚ)].length ∧
      [(2 : ℚ)].length = [((9 : ℚ)/10)].length) ∧
    (Inference.process_frame Inference.stubDetector5 (Inference.sampleFrameData 7)
        = some { frame_id := 7, boxes := List.replicate 5 [0, 0, 1, 1],
                 labels := List.replicate 5 2,
                 confidences := List.replicate 5 (9/10) } ∧
      (List.replicate 5 [(0 : ℚ), 0, 1, 1]).length
          = (List.replicate 5 (2 : ℚ)).length ∧
      (List.replicate 5 (2 : ℚ)).length
          = (List.replicate 5 ((9 : ℚ)/10)).length) :=
  ⟨⟨rfl, C2_detection_lengths_equal Inference.stubDetector0
      (Inference.sampleFrameData 7) _ rfl⟩,
   ⟨rfl, C2_detection_lengths_equal Inference.stubDetector1
      (Inference.sampleFrameData 7) _ rfl⟩,
   ⟨rfl, C2_detection_lengths_equal Inference.stubDetector5
      (Inference.sampleFrameData 7) _ rfl⟩⟩

/-- C5: feeding the worker loop the two-message sequence [malformed frame
message, well-formed frame message] publishes exactly one DetectionMessage,
the one for the well-formed message: the malformed payload is consumed
with no result and the loop continues to the next message. -/
theorem C5_malformed_then_wellformed (topic : String) (model : Inference.Model)
    (fd : Inference.FrameData) (d : Inference.DetectionMessage)
    (h : Inference.process_frame model fd = some d) :
    Inference.run topic model
        [Inference.PolledMsg.payload none, Inference.PolledMsg.payload (some fd)]
      = [{ topic := topic, key := toString d.frame_id, value := d }] := by
  simp [Inference.run, Inference.handle_message, h]

/-- C5 witness: the two-message scenario run concretely with the one-box
stub detector publishes exactly the detection of the well-formed message. -/
theorem C5_malformed_then_wellformed_witness :
    Inference.process_frame Inference.stubDetector1 (Inference.sampleFrameData 7)
        = some { frame_id := 7, boxes := [[0, 0, 1, 1]], labels := [2],
                 confidences := [9/10] } ∧
    Inference.run "detections" Inference.stubDetector1
        [Inference.PolledMsg.payload none,
         Inference.PolledMsg.payload (some (Inference.sampleFrameData 7))]
      = [{ topic := "detections", key := toString (7 : Int),
           value := { frame_id := 7, boxes := [[0, 0, 1, 1]], labels := [2],
                      confidences := [9/10] } }] :=
  ⟨rfl, C5_malformed_then_wellformed "detections" Inference.stubDetector1
    (Inference.sampleFrameData 7) _ rfl⟩

/-- C8: on the well-formed frame message with frame id 7, with the stub
detector returning one box `[0,0,1,1]`, label `2`, confidence `0.9`, the
worker publishes exactly the payload with frame id 7, those boxes, labels
and confidences, keyed by the string `7`, to the detections topic; and in
general every published record echoes the frame id of its input and is
keyed by its string form. -/
theorem C8_end_to_end_detection :
    Inference.run "detections" Inference.stubDetector1
        [Inference.PolledMsg.payload (some (Inference.sampleFrameData 7))]
      = [{ topic := "detections", key := "7",
           value := { frame_id := 7, boxes := [[0, 0, 1, 1]], labels := [2],
                      confidences := [9/10] } }] ∧
    ∀ (topic : String) (model : Inference.Model)
      (msgs : List Inference.PolledMsg) (rec : Inference.PublishedRecord),
      rec ∈ Inference.run topic model msgs →
        rec.key = toString rec.value.frame_id ∧ rec.topic = topic := by
  refine ⟨rfl, ?_⟩
  intro topic model msgs rec h
  obtain ⟨fd, _, _, htopic, hkey⟩ := Inference.mem_run h
  exact ⟨hkey, htopic⟩

/-- C8 witness: the general keying property applied to the concrete record
published in the stub scenario. -/
theorem C8_end_to_end_detection_witness :
    ({ topic := "detections", key := "7",
       value := { frame_id := 7, boxes := [[0, 0, 1, 1]], labels := [2],
                  confidences := [9/10] } } : Inference.PublishedRecord)
      ∈ Inference.run "detections" Inference.stubDetector1
          [Inference.PolledMsg.payload (some (Inference.sampleFrameData 7))] ∧
    ({ topic := "detections", key := "7",
       value := { frame_id := 7, boxes := [[0, 0, 1, 1]], labels := [2],
                  confidences := [9/10] } } : Inference.PublishedRecord).key
      = toString (7 : Int) :=
  ⟨by rw [C8_end_to_end_detection.1]; exact List.mem_singleton_self _,
   (C8_end_to_end_detection.2 "detections" Inference.stubDetector1
      [Inference.PolledMsg.payload (some (Inference.sampleFrameData 7))] _
      (by rw [C8_end_to_end_detection.1]; exact List.mem_singleton_self _)).1⟩

/-- C9: the worker process_frame is total at its public interface: a frame
dictionary missing the frame, prompt or frame id key, and a detector
invocation failure, all yield the no-result value `none` rather than a
propagated exception, and the loop publishes a DetectionMessage only for
messages on which process_frame returned an actual result. -/
theorem C9_worker_process_frame_total (model : Inference.Model)
    (fd : Inference.FrameData) :
    (fd.frame = none → Inference.process_frame model fd = none) ∧
    (fd.prompt = none → Inference.process_frame model fd = none) ∧
    (fd.frame_id = none → Inference.process_frame model fd = none) ∧
    (∀ f p, fd.frame = some f → fd.prompt = some p → model f p = none →
        Inference.process_frame model fd = none) ∧
    (∀ (topic : String) (msgs : List Inference.PolledMsg)
        (rec : Inference.PublishedRecord),
      rec ∈ Inference.run topic model msgs →
        ∃ fd2, Inference.PolledMsg.payload (some fd2) ∈ msgs ∧
          Inference.process_frame model fd2 = some rec.value) := by
  refine ⟨?_, ?_, ?_, ?_, ?_⟩
  · intro h; simp [Inference.process_frame, h]
  · intro h
    unfold Inference.process_frame
    rcases hfr : fd.frame with _ | frame
    · rfl
    · rw [h]
  · intro h
    unfold Inference.process_frame
    rcases hfr : fd.frame with _ | frame
    · rfl
    rcases hp : fd.prompt with _ | prompt
    · rfl
    · rw [h]
  · intro f p hf hp hm
    simp [Inference.process_frame, hf, hp, hm]
    rcases hid : fd.frame_id with _ | fid <;> simp
  · intro topic msgs rec h
    obtain ⟨fd2, hmem, hpf, _, _⟩ := Inference.mem_run h
    exact ⟨fd2, hmem, hpf⟩

/-- C9 witness: at a concrete dictionary missing the frame key, the worker
process_frame returns the no-result value. -/
theorem C9_worker_process_frame_total_witness :
    ({ frame := none, prompt := some "detect car", frame_id := some 7 }
        : Inference.FrameData).frame = none ∧
    Inference.process_frame Inference.stubDetector1
        { frame := none, prompt := some "detect car", frame_id := some 7 }
      = none :=
  ⟨rfl, (C9_worker_process_frame_total Inference.stubDetector1
    { frame := none, prompt := some "detect car", frame_id := some 7 }).1 rfl⟩

/-- C3 counterexample: in the concrete failing startup (encrypted model
path, no key in the environment, default partition), model loading does
fail with the missing-key error, but the trace of the failing `__init__`
already contains the construction of the broker Consumer client: the
Kafka clients are built on lines 36-46 of inference.py before
`_load_model` runs on line 49, so the failure does NOT happen before a
broker connection attempt, contrary to the claim. -/
theorem C3_counterexample_broker_client_first :
    (Inference.worker_init none (fun _ => none) "/models/yolo_world_m.pt.enc" 0).2
        = Except.error
            (Inference.LoadError.valueError "Model encryption key not found") ∧
    Inference.InitEvent.connectConsumer
        ∈ (Inference.worker_init none (fun _ => none)
            "/models/yolo_world_m.pt.enc" 0).1 := by
  exact ⟨rfl, by decide⟩

/-- C3 amended: when the model path ends in `.enc` and the decryption key
is absent from the environment, model loading fails with the
`ValueError('Model encryption key not found')` (the error the design
taxonomy calls ConfigurationError) before any I/O against the artifact:
the failing startup trace contains no artifact read, no temp write and no
model load, only the broker client constructions and the partition
assignment that `__init__` performs before `_load_model`. -/
theorem C3_missing_key_fails_before_artifact_io
    (fs : String → Option Inference.FileContent) (path : String)
    (partition : Nat) (h : str_endsWith path ".enc" = true) :
    (Inference.worker_init none fs path partition).2
        = Except.error
            (Inference.LoadError.valueError "Model encryption key not found") ∧
    (Inference.worker_init none fs path partition).1
        = [Inference.InitEvent.connectConsumer,
           Inference.InitEvent.connectProducer,
           Inference.InitEvent.assignPartition partition] := by
  constructor <;> simp [Inference.worker_init, Inference.load_model, h]

/-- C3 amended witness: the concrete failing startup of the counterexample
satisfies the amended statement. -/
theorem C3_missing_key_fails_before_artifact_io_witness :
    str_endsWith "/models/yolo_world_m.pt.enc" ".enc" = true ∧
    (Inference.worker_init none (fun _ => none)
        "/models/yolo_world_m.pt.enc" 0).2
      = Except.error
          (Inference.LoadError.valueError "Model encryption key not found") ∧
    (Inference.worker_init none (fun _ => none)
        "/models/yolo_world_m.pt.enc" 0).1
      = [Inference.InitEvent.connectConsumer,
         Inference.InitEvent.connectProducer,
         Inference.InitEvent.assignPartition 0] :=
  ⟨by decide,
   (C3_missing_key_fails_before_artifact_io (fun _ => none)
      "/models/yolo_world_m.pt.enc" 0 (by decide)).1,
   (C3_missing_key_fails_before_artifact_io (fun _ => none)
      "/models/yolo_world_m.pt.enc" 0 (by decide)).2⟩

/-- C4: decrypting the encryption of a plaintext P under a key K with K
yields byte-identical P; decryption with any other key fails with the
InvalidToken error (the error the design taxonomy calls DecryptionError),
and whenever the loader succeeds on an encrypted artifact it returns
exactly the plaintext of the stored token, decrypted under the token key,
never partially-decrypted or otherwise incorrect bytes. -/
theorem C4_fernet_roundtrip_and_loader_integrity :
    (∀ (k : String) (p : Bytes),
        Inference.fernet_decrypt k (Inference.fernet_encrypt k p)
          = Except.ok p) ∧
    (∀ (k k2 : String) (p : Bytes), k2 ≠ k →
        Inference.fernet_decrypt k2 (Inference.fernet_encrypt k p)
          = Except.error ()) ∧
    (∀ (k k2 : String) (p : Bytes)
        (fs : String → Option Inference.FileContent) (path : String),
        str_endsWith path ".enc" = true →
        fs path = some (Inference.FileContent.token (Inference.fernet_encrypt k p)) →
        (Inference.load_model (some k) fs path).2 = Except.ok p ∧
        (k2 ≠ k → (Inference.load_model (some k2) fs path).2
            = Except.error Inference.LoadError.invalidToken)) ∧
    (∀ (key : String) (t : Inference.FernetToken)
        (fs : String → Option Inference.FileContent) (path : String)
        (bytes : Bytes),
        str_endsWith path ".enc" = true →
        fs path = some (Inference.FileContent.token t) →
        (Inference.load_model (some key) fs path).2 = Except.ok bytes →
        bytes = t.data ∧ key = t.key) := by
  refine ⟨?_, ?_, ?_, ?_⟩
  · intro k p
    simp [Inference.fernet_decrypt, Inference.fernet_encrypt]
  · intro k k2 p hne
    simp [Inference.fernet_decrypt, Inference.fernet_encrypt]
    exact fun hh => absurd hh.symm hne
  · intro k k2 p fs path hpath hfs
    constructor
    · simp [Inference.load_model, hpath, hfs, Inference.fernet_decrypt,
        Inference.fernet_encrypt]
    · intro hne
      have hkk : ¬ (k = k2) := fun hh => hne hh.symm
      simp [Inference.load_model, hpath, hfs, Inference.fernet_decrypt,
        Inference.fernet_encrypt, hkk]
  · intro key t fs path bytes hpath hfs h
    simp only [Inference.load_model, hpath, if_true, hfs,
      Inference.fernet_decrypt] at h
    by_cases hk : t.key = key
    · rw [if_pos hk] at h
      cases h
      exact ⟨rfl, hk.symm⟩
    · rw [if_neg hk] at h
      cases h

/-- C4 witness: the round trip, the wrong-key failure, and loader
integrity checked on concrete keys, plaintext and filesystem. -/
theorem C4_fernet_roundtrip_and_loader_integrity_witness :
    ("KEYB" : String) ≠ "KEYA" ∧
    str_endsWith "/models/m.pt.enc" ".enc" = true ∧
    Inference.fernet_decrypt "KEYA" (Inference.fernet_encrypt "KEYA" [1, 2, 3])
      = Except.ok [1, 2, 3] ∧
    Inference.fernet_decrypt "KEYB" (Inference.fernet_encrypt "KEYA" [1, 2, 3])
      = Except.error () ∧
    (Inference.load_model (some "KEYA") Inference.fsTokenA "/models/m.pt.enc").2
      = Except.ok [1, 2, 3] ∧
    (Inference.load_model (some "KEYB") Inference.fsTokenA "/models/m.pt.enc").2
      = Except.error Inference.LoadError.invalidToken :=
  ⟨by decide, by decide,
   C4_fernet_roundtrip_and_loader_integrity.1 "KEYA" [1, 2, 3],
   C4_fernet_roundtrip_and_loader_integrity.2.1 "KEYA" "KEYB" [1, 2, 3]
     (by decide),
   (C4_fernet_roundtrip_and_loader_integrity.2.2.1 "KEYA" "KEYB" [1, 2, 3]
     Inference.fsTokenA "/models/m.pt.enc" (by decide) rfl).1,
   (C4_fernet_roundtrip_and_loader_integrity.2.2.1 "KEYA" "KEYB" [1, 2, 3]
     Inference.fsTokenA "/models/m.pt.enc" (by decide) rfl).2 (by decide)⟩
